import Mathlib

/-!
Shallow embedding of the core of the `any_table` repository: the type
classifier and value pipeline, the Mosaic row/count query clients, the
sparse data model, and the scroll/virtualization helpers, together with
proofs settling the specification claims about them.

Sources embedded:
* `src/unnamed/part_007` — `categorizeType`, `castForTransport`, `parseValue`
* `src/packages/core/src/mosaic/CountClient.ts` — `createCountClient`,
  `createRowsClient` (query generation, result handling, `fetchWindow`,
  the `sort` property)
* `src/packages/react/src/hooks/useContainerWidth.ts` — `useTableData`
  (`setSort`, `setWindow`, count/rows `onResult` wiring)
* `src/packages/react/src/hooks/useTableScroll.ts` and
  `src/unnamed/part_003` — `scrollToRow` (synthetic and native variants)
* The `SparseDataModel` and `computeVisibleRange` implementations are not
  present under `src/` (only their callers are); they are modelled from
  the specification where marked.
-/

/-- The closed set of type categories, from
`packages/core/src/types/interfaces.ts` (`TypeCategory`). -/
inductive TypeCategory where
  | text
  | numeric
  | temporal
  | boolean
  | binary
  | complex
  | identifier
  | enum
  | geo
  | unknown
  deriving DecidableEq, Repr

/-- ASCII uppercase of a character: models what JavaScript's
`String.prototype.toUpperCase` does on the ASCII characters appearing in
SQL type names (codepoints 97–122 map down by 32, everything else is
unchanged). -/
def asciiUpperChar (c : Char) : Char :=
  if 97 ≤ c.toNat ∧ c.toNat ≤ 122 then
    Char.ofNat (c.toNat - 32)
  else c

/-- Models `sqlType.toUpperCase()` (for the ASCII SQL type strings the
classifier receives). -/
def jsToUpper (s : String) : String :=
  String.mk (s.data.map asciiUpperChar)

/-- Structurally recursive character-list prefix test (so that the kernel
can evaluate it on concrete strings). -/
def listIsPrefixOf : List Char → List Char → Bool
  | [], _ => true
  | _ :: _, [] => false
  | p :: ps, c :: cs => p == c && listIsPrefixOf ps cs

/-- `strStartsWith t p` holds iff `p` is a prefix of `t`; models both
JavaScript's `t.startsWith(p)` and an anchored regex `/^p/.test(t)`. -/
def strStartsWith (t p : String) : Bool :=
  listIsPrefixOf p.data t.data

/-- `true` iff `t` starts with one of the given literals; models an
anchored regex alternation `/^(p1|p2|...)/.test(t)`. -/
def startsWithAny (t : String) (ps : List String) : Bool :=
  ps.any (fun p => strStartsWith t p)

/-- The classifier body of `categorizeType` (src/unnamed/part_007,
lines 275–321) applied to the already-uppercased type string `t`; each
branch transcribes one regex / equality test of the source, in source
order. -/
def categorizeUpper (t : String) : TypeCategory :=
  if t ∈ ["TINYINT", "SMALLINT", "INTEGER", "INT", "BIGINT", "HUGEINT",
          "UTINYINT", "USMALLINT", "UINTEGER", "UBIGINT"] then .numeric
  else if startsWithAny t ["FLOAT", "REAL", "DOUBLE", "DECIMAL", "NUMERIC"] then .numeric
  else if startsWithAny t ["DATE", "TIME", "TIMESTAMP", "TIMESTAMPTZ",
      "TIMESTAMP WITH TIME ZONE", "TIMESTAMP_S", "TIMESTAMP_MS",
      "TIMESTAMP_NS", "INTERVAL"] then .temporal
  else if t = "BOOLEAN" ∨ t = "BOOL" then .boolean
  else if t = "BLOB" ∨ t = "BYTEA" then .binary
  else if t = "UUID" then .identifier
  else if strStartsWith t "ENUM" then .enum
  else if startsWithAny t ["LIST", "ARRAY"] then .complex
  else if startsWithAny t ["STRUCT", "ROW"] then .complex
  else if strStartsWith t "MAP" then .complex
  else if strStartsWith t "UNION" then .complex
  else if t = "JSON" ∨ t = "JSONB" then .complex
  else if startsWithAny t ["GEOMETRY", "GEOGRAPHY", "POINT", "LINESTRING",
      "POLYGON"] then .geo
  else if startsWithAny t ["VARCHAR", "TEXT", "CHAR", "STRING", "NAME",
      "BPCHAR"] then .text
  else .unknown

/-- `categorizeType` (src/unnamed/part_007, lines 275–321): normalizes
the SQL type string to uppercase and classifies it. -/
def categorizeType (s : String) : TypeCategory :=
  categorizeUpper (jsToUpper s)

/-- Column schema (`packages/core/src/types/interfaces.ts`): stable key,
backend SQL type string, derived category. -/
structure ColumnSchema where
  name : String
  sqlType : String
  typeCategory : TypeCategory
  deriving DecidableEq, Repr

/-- Cast descriptor (`packages/core/src/types/interfaces.ts`): the optional
SQL cast target for a column. -/
structure CastDescriptor where
  column : String
  castTo : Option String
  deriving DecidableEq, Repr

/-- `castForTransport` (src/unnamed/part_007, lines 355–378), surfaced to
`createRowsClient` as `getCastDescriptor`: switch on the uppercased SQL
type — `BIGINT`/`HUGEINT`/`UBIGINT`, `INTERVAL`/`TIME`, `JSON`/`JSONB`
cast to `TEXT`; in the default branch a `complex` category casts to
`TEXT`; everything else gets no cast. -/
def getCastDescriptor (schema : ColumnSchema) : CastDescriptor :=
  let t := jsToUpper schema.sqlType
  { column := schema.name,
    castTo :=
      if t = "BIGINT" ∨ t = "HUGEINT" ∨ t = "UBIGINT" then some "TEXT"
      else if t = "INTERVAL" ∨ t = "TIME" then some "TEXT"
      else if t = "JSON" ∨ t = "JSONB" then some "TEXT"
      else if schema.typeCategory = .complex then some "TEXT"
      else .none }

-- ── Value pipeline (`parseValue`, src/unnamed/part_007 lines 386–410) ──

/-- A raw transported cell value as it reaches `parseValue`. JavaScript's
`raw == null` is true for both `null` and `undefined`. Fractional JS
numbers do not arrive for the columns in question, so numbers are
modelled as integers. -/
inductive RawValue where
  | nullV
  | undef
  | str (s : String)
  | num (n : Int)
  deriving DecidableEq, Repr

/-- A scalar JSON value; the modelled fragment of JavaScript's JSON
value space (see `jsonParseLite`). -/
inductive JsonLite where
  | jnull
  | jbool (b : Bool)
  | jnum (n : Int)
  | jstr (s : String)
  deriving DecidableEq, Repr

/-- The exception `BigInt(raw)` raises on a malformed integer string
(a JavaScript `SyntaxError`). -/
inductive ParseError where
  | bigIntError
  deriving DecidableEq, Repr

/-- A parsed cell value as produced by `parseValue`: `null`, a passed
through raw value, the `{display, sortValue}` record for wide integers,
a `Date` wrapper, or a parsed JSON value. -/
inductive ParsedValue where
  | nullV
  | rawStr (s : String)
  | rawNum (n : Int)
  | bigIntRec (display : RawValue) (sortValue : Int)
  | dateV (raw : RawValue)
  | jsonV (j : JsonLite)
  deriving DecidableEq, Repr

/-- The whitespace characters trimmed before numeric conversion (the
common ASCII subset of JavaScript's whitespace). -/
def isJsWhitespace (c : Char) : Bool :=
  c = ' ' ∨ c = '\t' ∨ c = '\n' ∨ c = '\r'

/-- Strip leading and trailing whitespace from a character list. -/
def trimChars (l : List Char) : List Char :=
  ((l.dropWhile isJsWhitespace).reverse.dropWhile isJsWhitespace).reverse

/-- Value of a list of decimal digits. -/
def digitsToNat (l : List Char) : Nat :=
  l.foldl (fun acc c => acc * 10 + (c.toNat - 48)) 0

/-- Models JavaScript's `BigInt(string)` conversion on decimal inputs:
whitespace is trimmed, the empty string is `0n`, an optional sign
followed by decimal digits converts, and anything else throws
(`none` here). (The hex/octal/binary prefix forms of the grammar do not
occur for transported column values and are not modelled.) -/
def jsBigIntOfString (s : String) : Option Int :=
  let l := trimChars s.data
  if l.isEmpty then some 0
  else
    let signAndDigits : Int × List Char :=
      match l with
      | '-' :: rest => (-1, rest)
      | '+' :: rest => (1, rest)
      | _ => (1, l)
    if ¬ signAndDigits.2.isEmpty ∧ signAndDigits.2.all Char.isDigit then
      some (signAndDigits.1 * digitsToNat signAndDigits.2)
    else .none

/-- Models `JSON.parse` restricted to scalar literals (`null`, `true`,
`false`, unsigned integers); other inputs report failure (`none`), which
in `parseValue` corresponds to the `catch` branch. The claims about
`parseValue` depend only on the attempt/recover split of the `complex`
branch, not on which strings successfully parse. -/
def jsonParseLite (s : String) : Option JsonLite :=
  let l := trimChars s.data
  if l = "null".data then some .jnull
  else if l = "true".data then some (.jbool true)
  else if l = "false".data then some (.jbool false)
  else if ¬ l.isEmpty ∧ l.all Char.isDigit then some (.jnum (digitsToNat l))
  else .none

/-- `parseValue` (src/unnamed/part_007, lines 386–410). Branches follow
the source exactly: `raw == null → null`; `numeric` with sqlType
`BIGINT`/`HUGEINT` builds `{display: raw, sortValue: BigInt(raw)}` —
where `BigInt(raw)` THROWS on a malformed string (there is no try/catch
in this branch); `temporal` `DATE`/`TIMESTAMP*` wraps in `new Date(raw)`
(never throws); `complex` attempts `JSON.parse` inside try/catch and
falls back to the raw value; all other categories pass through. -/
def parseValue (raw : RawValue) (schema : ColumnSchema) : Except ParseError ParsedValue :=
  match raw with
  | .nullV => .ok .nullV
  | .undef => .ok .nullV
  | .str s =>
    match schema.typeCategory with
    | .numeric =>
      if schema.sqlType = "BIGINT" ∨ schema.sqlType = "HUGEINT" then
        match jsBigIntOfString s with
        | some n => .ok (.bigIntRec (.str s) n)
        | .none => .error .bigIntError
      else .ok (.rawStr s)
    | .temporal =>
      if schema.sqlType = "DATE" ∨ strStartsWith schema.sqlType "TIMESTAMP" then
        .ok (.dateV (.str s))
      else .ok (.rawStr s)
    | .complex =>
      match jsonParseLite s with
      | some j => .ok (.jsonV j)
      | .none => .ok (.rawStr s)
    | _ => .ok (.rawStr s)
  | .num n =>
    match schema.typeCategory with
    | .numeric =>
      if schema.sqlType = "BIGINT" ∨ schema.sqlType = "HUGEINT" then
        .ok (.bigIntRec (.num n) n)
      else .ok (.rawNum n)
    | .temporal =>
      if schema.sqlType = "DATE" ∨ strStartsWith schema.sqlType "TIMESTAMP" then
        .ok (.dateV (.num n))
      else .ok (.rawNum n)
    | .complex => .ok (.jsonV (.jnum n))
    | _ => .ok (.rawNum n)

-- ── Sort values (`packages/core/src/types/interfaces.ts`) ──

/-- One sort field: column key and direction. -/
structure SortField where
  column : String
  desc : Bool
  deriving DecidableEq, Repr

/-- The `Sort` union of interfaces.ts — a single field or a list of
fields. Named `JsSort` because `Sort` is reserved in Lean. -/
inductive JsSort where
  | single (f : SortField)
  | multi (fs : List SortField)
  deriving DecidableEq, Repr

/-- `normalizeSortFields` (CountClient.ts lines 61–64): `null` stays
`null`; an array passes through; a single field becomes a one-element
array. -/
def normalizeSortFields : Option JsSort → Option (List SortField)
  | .none => .none
  | some (.single f) => some [f]
  | some (.multi fs) => some fs

-- ── SQL builder model (`@uwdata/mosaic-sql` as used by the clients) ──

/-- SQL expressions produced through the builder functions the clients
use: `column`, `cast`, `desc`, `row_number` (with its window `ORDER BY`
list), and `count()`. -/
inductive SqlExpr where
  | col (name : String)
  | cast (e : SqlExpr) (ty : String)
  | desc (e : SqlExpr)
  | rowNumber (orderExprs : List SqlExpr)
  | countStar
  deriving Repr

/-- A select query as assembled through
`Query.from(...).select(...).where(...).orderby(...).limit(...).offset(...)`.
The filter predicate is opaque to the clients, hence the type parameter. -/
structure SelectQuery (F : Type) where
  table : String
  select : List (String × SqlExpr)
  whereFilter : Option F
  orderby : List SqlExpr
  limit : Option Int
  offset : Option Int

/-- `Query.from(table)`. -/
def queryFrom (F : Type) (table : String) : SelectQuery F :=
  { table := table, select := [], whereFilter := .none, orderby := [],
    limit := .none, offset := .none }

/-- `.select(obj)` — adds the projections of `obj` (in insertion order). -/
def SelectQuery.selectList {F : Type} (q : SelectQuery F)
    (s : List (String × SqlExpr)) : SelectQuery F :=
  { q with select := q.select ++ s }

/-- `.where(filter)` — `filter` may be absent. -/
def SelectQuery.whereClause {F : Type} (q : SelectQuery F) (f : Option F) :
    SelectQuery F :=
  { q with whereFilter := f }

/-- `.orderby(...exprs)`. -/
def SelectQuery.orderbyList {F : Type} (q : SelectQuery F)
    (es : List SqlExpr) : SelectQuery F :=
  { q with orderby := q.orderby ++ es }

/-- `.limit(n)`. -/
def SelectQuery.limitTo {F : Type} (q : SelectQuery F) (n : Int) :
    SelectQuery F :=
  { q with limit := some n }

/-- `.offset(n)`. -/
def SelectQuery.offsetBy {F : Type} (q : SelectQuery F) (n : Int) :
    SelectQuery F :=
  { q with offset := some n }

/-- `rn.orderby(...exprs)` on a window-function expression: extends the
window `ORDER BY` list of `row_number()`. -/
def SqlExpr.orderbyExpr : SqlExpr → List SqlExpr → SqlExpr
  | .rowNumber es, more => .rowNumber (es ++ more)
  | e, _ => e

/-- JavaScript object property assignment `obj[k] = v` on an
insertion-ordered object: overwrites in place if `k` is present
(keeping its original position), otherwise appends. -/
def objSet (obj : List (String × SqlExpr)) (k : String) (v : SqlExpr) :
    List (String × SqlExpr) :=
  if obj.any (fun p => p.1 == k) then
    obj.map (fun p => if p.1 == k then (k, v) else p)
  else obj ++ [(k, v)]

/-- The projection chosen for one column in `client.query`
(CountClient.ts lines 93–100): a cast expression when the cast selector
names a target, the bare column otherwise. -/
def colProjection (c : ColumnSchema) : SqlExpr :=
  match (getCastDescriptor c).castTo with
  | some ty => SqlExpr.cast (.col c.name) ty
  | .none => .col c.name

/-- The `ORDER BY` expressions for a sort-field list (CountClient.ts
lines 106–109 and 118–122): `desc(column(c))` for descending fields,
`column(c)` otherwise. -/
def orderExprsOf (sf : List SortField) : List SqlExpr :=
  sf.map (fun f => if f.desc then SqlExpr.desc (.col f.column) else .col f.column)

/-- The `select` object after the per-column loop of `client.query`
(CountClient.ts lines 91–100). -/
def buildSelectObj (cols : List ColumnSchema) : List (String × SqlExpr) :=
  cols.foldl (fun acc c => objSet acc c.name (colProjection c)) []

/-- `client.query` of `createRowsClient` (CountClient.ts lines 90–126),
transcribed statement by statement: build the projection object, compute
`__oid` as `row_number()` with a window `ORDER BY` when the normalized
sort list is non-empty, attach `WHERE`, a top-level `ORDER BY` only when
the sort list is non-empty, then `LIMIT`/`OFFSET`. -/
def rowsClientQuery (F : Type) (tableName : String)
    (columns : List ColumnSchema) (currentSort : Option JsSort)
    (currentOffset currentLimit : Int) (filter : Option F) : SelectQuery F :=
  let select := buildSelectObj columns
  let sortFields := normalizeSortFields currentSort
  let rn : SqlExpr := .rowNumber []
  let rn := match sortFields with
    | some sf => if 0 < sf.length then rn.orderbyExpr (orderExprsOf sf) else rn
    | .none => rn
  let select := objSet select "__oid" rn
  let q := ((queryFrom F tableName).selectList select).whereClause filter
  let q := match sortFields with
    | some sf => if 0 < sf.length then q.orderbyList (orderExprsOf sf) else q
    | .none => q
  (q.limitTo currentLimit).offsetBy currentOffset

/-- The row query shape the specification states (§4.D query generation,
§6 wire shape), built directly as one record for comparison with
`rowsClientQuery`. -/
def specRowQuery (F : Type) (tableName : String)
    (columns : List ColumnSchema) (currentSort : Option JsSort)
    (currentOffset currentLimit : Int) (filter : Option F) : SelectQuery F :=
  let sf := (normalizeSortFields currentSort).getD []
  { table := tableName,
    select := columns.map (fun c => (c.name, colProjection c)) ++
      [("__oid", SqlExpr.rowNumber (if sf.isEmpty then [] else orderExprsOf sf))],
    whereFilter := filter,
    orderby := if sf.isEmpty then [] else orderExprsOf sf,
    limit := some currentLimit,
    offset := some currentOffset }

/-- `client.query` of `createCountClient` (CountClient.ts lines 25–29):
`Query.from(tableName).select({count: count()}).where(filter)`. -/
def countClientQuery (F : Type) (tableName : String) (filter : Option F) :
    SelectQuery F :=
  ((queryFrom F tableName).selectList [("count", SqlExpr.countStar)]).whereClause filter

/-- The count query shape the specification states:
`SELECT count(*) AS count FROM <table> WHERE <filter>` with no ordering,
limit or offset. -/
def specCountQuery (F : Type) (tableName : String) (filter : Option F) :
    SelectQuery F :=
  { table := tableName, select := [("count", SqlExpr.countStar)],
    whereFilter := filter, orderby := [], limit := .none, offset := .none }

/-- A row of a delivered count result: the `count` field may be missing
or null (`none`). -/
structure CountRow where
  count : Option Nat
  deriving DecidableEq, Repr

/-- The integer `client.queryResult` of `createCountClient` extracts
(CountClient.ts lines 31–37): `Number(arr[0]?.count ?? 0)` — an empty
array or a missing `count` field yields `0`. -/
def extractCount (arr : List CountRow) : Nat :=
  match arr.head? with
  | .none => 0
  | some r => r.count.getD 0

-- ── Sparse Data Model (modelled from the spec) ──

/-- Modelled from the spec: the `SparseDataModel` class of
`@anytable/core` is not present under `src/` (only its callers in
`useTableData` are). Spec §3/§4.C: a mapping from integer position to
row record plus an authoritative `totalRows` count. -/
structure SparseDataModel (Row : Type) where
  rows : Nat → Option Row
  totalRows : Nat

/-- Modelled from the spec: `getRow(i)` returns the row record or null
(not loaded). -/
def SparseDataModel.getRow {Row : Type} (m : SparseDataModel Row) (i : Nat) :
    Option Row :=
  m.rows i

/-- Modelled from the spec: `hasRow(i)`. -/
def SparseDataModel.hasRow {Row : Type} (m : SparseDataModel Row) (i : Nat) :
    Bool :=
  (m.rows i).isSome

/-- Modelled from the spec: `clear()` empties the row mapping. -/
def SparseDataModel.clear {Row : Type} (m : SparseDataModel Row) :
    SparseDataModel Row :=
  { m with rows := fun _ => .none }

/-- Modelled from the spec: `setTotalRows(n)` replaces the count and
discards rows at positions `≥ n`. -/
def SparseDataModel.setTotalRows {Row : Type} (m : SparseDataModel Row)
    (n : Nat) : SparseDataModel Row :=
  { rows := fun i => if i < n then m.rows i else .none, totalRows := n }

/-- Modelled from the spec: `mergeRows(offset, rows)` overwrites
positions `offset..offset+rows.length-1` (last-writer-wins by
position). -/
def SparseDataModel.mergeRows {Row : Type} (m : SparseDataModel Row)
    (offset : Nat) (rs : List Row) : SparseDataModel Row :=
  { m with rows := fun i =>
      if offset ≤ i ∧ i < offset + rs.length then rs.get? (i - offset)
      else m.rows i }

-- ── Row client state and the data handle operations ──

/-- The mutable state captured by the `createRowsClient` closure
(CountClient.ts lines 80–82): `currentSort`, `currentOffset` (initially
0), `currentLimit` (initially 100); `pendingUpdate` records that
`requestUpdate()` has been invoked. Offsets and limits are JavaScript
numbers, modelled as integers. -/
structure RowsClientState where
  currentSort : Option JsSort
  currentOffset : Int
  currentLimit : Int
  pendingUpdate : Bool
  deriving DecidableEq, Repr

/-- The `sort` property setter of the rows client (CountClient.ts lines
84–88): assigns `currentSort` and nothing else. -/
def RowsClientState.setSortProp (c : RowsClientState) (v : Option JsSort) :
    RowsClientState :=
  { c with currentSort := v }

/-- `client.fetchWindow(offset, limit)` (CountClient.ts lines 145–149):
stores both arguments unmodified and calls `requestUpdate()`. -/
def RowsClientState.fetchWindow (c : RowsClientState) (offset limit : Int) :
    RowsClientState :=
  { c with currentOffset := offset, currentLimit := limit, pendingUpdate := true }

/-- `client.requestUpdate()` — asks the coordinator to re-execute. -/
def RowsClientState.requestUpdate (c : RowsClientState) : RowsClientState :=
  { c with pendingUpdate := true }

/-- The state the Mosaic-mode data handle closes over: the rows client
and the sparse data model. -/
structure MosaicTableState (Row : Type) where
  client : RowsClientState
  model : SparseDataModel Row

/-- `setSort` of `useTableData` in Mosaic mode (useContainerWidth.ts
lines 243–251): `client.sort = newSort; model.clear();
client.requestUpdate()` — in that order, with no write to the fetch
window. -/
def setSortMosaic {Row : Type} (st : MosaicTableState Row)
    (newSort : Option JsSort) : MosaicTableState Row :=
  let client := st.client.setSortProp newSort
  let model := st.model.clear
  { client := client.requestUpdate, model := model }

/-- `setWindow` of `useTableData` (useContainerWidth.ts lines 257–262):
delegates to the rows client's `fetchWindow`. -/
def setWindowTable {Row : Type} (st : MosaicTableState Row)
    (offset limit : Int) : MosaicTableState Row :=
  { st with client := st.client.fetchWindow offset limit }

/-- Delivery of a count result (queryResult, CountClient.ts lines 31–37,
wired to `model.setTotalRows` by the count client's `onResult` in
useContainerWidth.ts lines 163–166). -/
def deliverCountResult {Row : Type} (st : MosaicTableState Row)
    (arr : List CountRow) : MosaicTableState Row :=
  { st with model := st.model.setTotalRows (extractCount arr) }

-- ── Scroll helpers ──

/-- `scrollToRow` of `useTableScroll`
(packages/react/src/hooks/useTableScroll.ts lines 229–237, the
synthetic-scroll variant): `scrollTopRef.current = Math.max(0, index *
rowHeight)`, then a frame is scheduled if none is pending. Returns the
new scrollTop and whether a frame is pending afterwards. -/
def scrollToRowSynthetic (index : Int) (rowHeight : ℚ) : ℚ × Bool :=
  (max 0 ((index : ℚ) * rowHeight), true)

/-- `scrollToRow` of the native-scroll `useTableScroll` variant
(src/unnamed/part_003 lines 136–146): clamps `index * rowHeight` to
`[0, max(0, totalHeight − clientHeight)]` via
`Math.max(0, Math.min(maxScrollTop, target))`, then schedules. -/
def scrollToRowNative (index : Int) (rowHeight totalHeight clientHeight : ℚ) :
    ℚ × Bool :=
  let maxScrollTop := max 0 (totalHeight - clientHeight)
  let target := (index : ℚ) * rowHeight
  (max 0 (min maxScrollTop target), true)

/-- A visible range; `endIdx` stands for the spec's `end` (a Lean
keyword). -/
structure VisibleRange where
  start : Int
  endIdx : Int
  deriving DecidableEq, Repr

/-- Modelled from the spec: the `computeVisibleRange` function of
`@anytable/core`'s virtualization module is not present under `src/`
(only its callers in the scroll hooks are). Spec §4.E:
`start = max(0, floor(scrollTop / rowHeight))`,
`end = min(totalRows, ceil((scrollTop + viewportHeight) / rowHeight))`. -/
def computeVisibleRange (scrollTop viewportHeight rowHeight : ℚ)
    (totalRows : Int) : VisibleRange :=
  { start := max 0 ⌊scrollTop / rowHeight⌋,
    endIdx := min totalRows ⌈(scrollTop + viewportHeight) / rowHeight⌉ }

-- ══ Theorems ══

-- ── Helper lemmas ──

theorem toNat_charOfNat_of_valid (n : Nat) (h : n < 55296) :
    (Char.ofNat n).toNat = n := by
  have hv : n.isValidChar := Or.inl h
  rw [Char.ofNat, dif_pos hv]
  rfl

theorem asciiUpperChar_idem (c : Char) :
    asciiUpperChar (asciiUpperChar c) = asciiUpperChar c := by
  unfold asciiUpperChar
  by_cases h : 97 ≤ c.toNat ∧ c.toNat ≤ 122
  · rw [if_pos h]
    have ht : (Char.ofNat (c.toNat - 32)).toNat = c.toNat - 32 :=
      toNat_charOfNat_of_valid _ (by omega)
    rw [if_neg (by rw [ht]; omega)]
  · rw [if_neg h, if_neg h]

theorem mapAsciiUpper_idem (l : List Char) :
    (l.map asciiUpperChar).map asciiUpperChar = l.map asciiUpperChar := by
  induction l with
  | nil => rfl
  | cons c cs ih => simp [List.map, ih, asciiUpperChar_idem]

theorem jsToUpper_idem (s : String) : jsToUpper (jsToUpper s) = jsToUpper s := by
  unfold jsToUpper
  exact congrArg String.mk (mapAsciiUpper_idem s.data)

-- ── C8 ──

/-- C8: for every SQL type string `s`, `categorizeType s` equals
`categorizeType` of the uppercase of `s` (classification is
case-insensitive), and in particular `categorizeType "bigint"` and
`categorizeType "BIGINT"` are both `numeric`. -/
theorem categorizeType_case_insensitive :
    (∀ s : String, categorizeType s = categorizeType (jsToUpper s)) ∧
    categorizeType "bigint" = .numeric ∧ categorizeType "BIGINT" = .numeric := by
  refine ⟨fun s => ?_, by decide, by decide⟩
  show categorizeUpper (jsToUpper s) = categorizeUpper (jsToUpper (jsToUpper s))
  rw [jsToUpper_idem]

-- ── C7 ──

/-- C7: for a schema whose category is derived from its SQL type (as
`fetchSchema` builds them), the transport cast selector returns `TEXT`
exactly when the uppercased SQL type is `BIGINT`, `HUGEINT`, `UBIGINT`,
`INTERVAL` or `TIME`, or the category is `complex` (which covers
`JSON`/`JSONB`); every other schema gets no cast. -/
theorem text_cast_characterization (s : ColumnSchema)
    (hcat : s.typeCategory = categorizeType s.sqlType) :
    ((getCastDescriptor s).castTo = some "TEXT" ∨ (getCastDescriptor s).castTo = .none) ∧
    ((getCastDescriptor s).castTo = some "TEXT" ↔
      (jsToUpper s.sqlType = "BIGINT" ∨ jsToUpper s.sqlType = "HUGEINT" ∨
       jsToUpper s.sqlType = "UBIGINT" ∨ jsToUpper s.sqlType = "INTERVAL" ∨
       jsToUpper s.sqlType = "TIME" ∨ s.typeCategory = TypeCategory.complex)) := by
  simp only [getCastDescriptor]
  split_ifs with h1 h2 h3 h4
  · exact ⟨Or.inl rfl, iff_of_true rfl (by tauto)⟩
  · exact ⟨Or.inl rfl, iff_of_true rfl (by tauto)⟩
  · have hc : s.typeCategory = TypeCategory.complex := by
      rcases h3 with h | h <;> (rw [hcat]; unfold categorizeType; rw [h]; decide)
    exact ⟨Or.inl rfl, iff_of_true rfl (by tauto)⟩
  · exact ⟨Or.inl rfl, iff_of_true rfl (by tauto)⟩
  · refine ⟨Or.inr rfl, iff_of_false (by simp) ?_⟩
    rintro (h | h | h | h | h | h) <;> tauto

/-- Witness for C7 at the spec's concrete examples: `BIGINT → "TEXT"`,
`INTEGER → no cast`, `JSON → "TEXT"`. -/
theorem text_cast_characterization_witness :
    (getCastDescriptor ⟨"a", "BIGINT", .numeric⟩).castTo = some "TEXT" ∧
    (getCastDescriptor ⟨"b", "INTEGER", .numeric⟩).castTo = .none ∧
    (getCastDescriptor ⟨"c", "JSON", .complex⟩).castTo = some "TEXT" :=
  ⟨(text_cast_characterization ⟨"a", "BIGINT", .numeric⟩ (by decide)).2.mpr (by decide),
   by decide,
   (text_cast_characterization ⟨"c", "JSON", .complex⟩ (by decide)).2.mpr (by decide)⟩

-- ── C3 ──

/-- C3 counterexample: for the numeric column of SQL type `BIGINT` and
the raw value `"abc"` (not a well-formed integer string), `parseValue`
raises — `BigInt("abc")` throws a `SyntaxError`, there is no try/catch in
the numeric branch — instead of degrading to the raw string as the claim
states. -/
theorem parseValue_bigint_throws_cex :
    parseValue (.str "abc") ⟨"v", "BIGINT", .numeric⟩ = .error .bigIntError ∧
    parseValue (.str "abc") ⟨"v", "BIGINT", .numeric⟩ ≠ .ok (.rawStr "abc") :=
  ⟨rfl, fun h => Except.noConfusion h⟩

/-- C3 (amended): `parseValue` raises exactly when the column category is
`numeric`, the SQL type is `BIGINT` or `HUGEINT`, and the raw value is a
string that is not a well-formed integer literal; for every other input
it returns without raising, and in particular a failed structured-text
parse for a `complex` column degrades to the raw string. -/
theorem parseValue_error_characterization :
    (∀ (raw : RawValue) (schema : ColumnSchema),
      parseValue raw schema = .error .bigIntError ↔
        (schema.typeCategory = TypeCategory.numeric ∧
         (schema.sqlType = "BIGINT" ∨ schema.sqlType = "HUGEINT") ∧
         ∃ s, raw = .str s ∧ jsBigIntOfString s = .none)) ∧
    (∀ (s : String) (schema : ColumnSchema),
      schema.typeCategory = TypeCategory.complex → jsonParseLite s = .none →
      parseValue (.str s) schema = .ok (.rawStr s)) := by
  constructor
  · intro raw schema
    cases raw with
    | nullV => simp [parseValue]
    | undef => simp [parseValue]
    | num n =>
      cases htc : schema.typeCategory <;> simp [parseValue, htc] <;> split <;> simp
    | str s =>
      cases htc : schema.typeCategory <;> simp [parseValue, htc]
      · -- numeric
        split_ifs with hw
        · cases hj : jsBigIntOfString s <;> simp [hj, hw]
        · simp [hw]
      · -- temporal
        split <;> simp
      · -- complex
        cases hj : jsonParseLite s <;> simp [hj]
  · intro s schema hc hj
    simp [parseValue, hc, hj]

/-- Witness for the hypotheses of the amended C3: a `complex` column
whose raw string does not parse as structured text degrades to the raw
string, and `parseValue` applied to a well-formed `BIGINT` string does
not raise. -/
theorem parseValue_error_characterization_witness :
    parseValue (.str "not json") ⟨"c", "STRUCT(x INT)", .complex⟩ = .ok (.rawStr "not json") ∧
    parseValue (.str "42") ⟨"v", "BIGINT", .numeric⟩ ≠ .error .bigIntError :=
  ⟨parseValue_error_characterization.2 "not json" ⟨"c", "STRUCT(x INT)", .complex⟩ rfl rfl,
   fun h => by
    have := (parseValue_error_characterization.1 (.str "42") ⟨"v", "BIGINT", .numeric⟩).mp h
    rcases this with ⟨-, -, s, hs, hbad⟩
    cases hs
    exact absurd hbad (by decide)⟩

-- ── C4 ──

/-- C4 counterexample: at `scrollTop = 100`, `viewportHeight = 40`,
`rowHeight = 10`, `totalRows = 5` — all satisfying the claim's
hypotheses — the spec's formulas give `start = 10` and `end = 5`, so the
computation returns `end < start`. -/
theorem computeVisibleRange_end_lt_start_cex :
    (0:ℚ) ≤ 100 ∧ (0:ℚ) ≤ 40 ∧ (0:ℚ) < 10 ∧ (0:Int) ≤ 5 ∧
    (computeVisibleRange 100 40 10 5).endIdx < (computeVisibleRange 100 40 10 5).start := by
  refine ⟨by norm_num, by norm_num, by norm_num, by norm_num, ?_⟩
  show (min 5 ⌈((100:ℚ) + 40) / 10⌉) < (max 0 ⌊(100:ℚ) / 10⌋)
  norm_num

/-- C4 (amended): `computeVisibleRange` returns exactly the spec's
`start`/`end` formulas, and whenever additionally
`scrollTop ≤ totalRows × rowHeight` (the scroll offset does not exceed
the content height — which the scroll hooks enforce by clamping), the
range satisfies `0 ≤ start ≤ end ≤ totalRows`; without that extra bound
`end < start` is possible. -/
theorem computeVisibleRange_formula_and_bounds
    (scrollTop viewportHeight rowHeight : ℚ) (totalRows : Int)
    (hs : 0 ≤ scrollTop) (hv : 0 ≤ viewportHeight) (hr : 0 < rowHeight)
    (hN : 0 ≤ totalRows) (hb : scrollTop ≤ (totalRows : ℚ) * rowHeight) :
    (computeVisibleRange scrollTop viewportHeight rowHeight totalRows).start
        = max 0 ⌊scrollTop / rowHeight⌋ ∧
    (computeVisibleRange scrollTop viewportHeight rowHeight totalRows).endIdx
        = min totalRows ⌈(scrollTop + viewportHeight) / rowHeight⌉ ∧
    0 ≤ (computeVisibleRange scrollTop viewportHeight rowHeight totalRows).start ∧
    (computeVisibleRange scrollTop viewportHeight rowHeight totalRows).start
        ≤ (computeVisibleRange scrollTop viewportHeight rowHeight totalRows).endIdx ∧
    (computeVisibleRange scrollTop viewportHeight rowHeight totalRows).endIdx ≤ totalRows := by
  refine ⟨rfl, rfl, le_max_left _ _, ?_, min_le_left _ _⟩
  show max 0 ⌊scrollTop / rowHeight⌋ ≤ min totalRows ⌈(scrollTop + viewportHeight) / rowHeight⌉
  have h1 : ⌊scrollTop / rowHeight⌋ ≤ totalRows := by
    have hq : scrollTop / rowHeight ≤ (totalRows : ℚ) := (div_le_iff₀ hr).mpr hb
    calc ⌊scrollTop / rowHeight⌋ ≤ ⌊(totalRows : ℚ)⌋ := Int.floor_le_floor hq
      _ = totalRows := Int.floor_intCast totalRows
  have h2 : ⌊scrollTop / rowHeight⌋ ≤ ⌈(scrollTop + viewportHeight) / rowHeight⌉ := by
    have hmono : scrollTop / rowHeight ≤ (scrollTop + viewportHeight) / rowHeight :=
      (div_le_div_iff_of_pos_right hr).mpr (le_add_of_nonneg_right hv)
    calc ⌊scrollTop / rowHeight⌋ ≤ ⌈scrollTop / rowHeight⌉ := Int.floor_le_ceil _
      _ ≤ ⌈(scrollTop + viewportHeight) / rowHeight⌉ := Int.ceil_le_ceil hmono
  have h3 : (0:Int) ≤ ⌈(scrollTop + viewportHeight) / rowHeight⌉ :=
    Int.ceil_nonneg (div_nonneg (add_nonneg hs hv) hr.le)
  exact max_le (le_min hN h3) (le_min h1 h2)

/-- Witness for the amended C4 at the spec's concrete example:
`scrollTop=250, viewportHeight=400, rowHeight=50, totalRows=1000` gives
`{start: 5, end: 13}` within bounds. -/
theorem computeVisibleRange_formula_and_bounds_witness :
    (0 ≤ (computeVisibleRange 250 400 50 1000).start ∧
     (computeVisibleRange 250 400 50 1000).start
        ≤ (computeVisibleRange 250 400 50 1000).endIdx ∧
     (computeVisibleRange 250 400 50 1000).endIdx ≤ 1000) ∧
    computeVisibleRange 250 400 50 1000 = ⟨5, 13⟩ := by
  have h := computeVisibleRange_formula_and_bounds 250 400 50 1000
    (by norm_num) (by norm_num) (by norm_num) (by norm_num) (by norm_num)
  refine ⟨⟨h.2.2.1, h.2.2.2.1, h.2.2.2.2⟩, ?_⟩
  simp only [computeVisibleRange, VisibleRange.mk.injEq]
  norm_num

-- ── C9 ──

/-- C9 counterexample: in the synthetic-scroll variant
(packages/react/src/hooks/useTableScroll.ts lines 229–237), with
`rowHeight = 10`, `totalHeight = 100` (10 rows) and
`viewportHeight = 50`, `scrollToRow(8)` sets `scrollTop = 80`, above the
maximum scroll position `totalHeight − viewportHeight = 50` — the claim's
upper clamp is not applied. -/
theorem scrollToRow_unclamped_cex :
    (scrollToRowSynthetic 8 10).1 = 80 ∧
    ¬ (scrollToRowSynthetic 8 10).1 ≤ (100:ℚ) - 50 := by
  constructor
  · show max 0 ((8:ℚ) * 10) = 80
    norm_num
  · show ¬ max 0 ((8:ℚ) * 10) ≤ (100:ℚ) - 50
    norm_num

/-- C9 (amended): the native-scroll variant's `scrollToRow(i)` sets the
scroll position to `i × rowHeight` clamped to
`[0, max(0, totalHeight − viewportHeight)]` and schedules a frame
update; the synthetic-scroll variant's `scrollToRow(i)` sets
`max(0, i × rowHeight)` — clamped below only, not against the maximum
scroll position — and schedules a frame update. -/
theorem scrollToRow_variants :
    (∀ (i : Int) (rh th ch : ℚ),
      scrollToRowNative i rh th ch = (max 0 (min (max 0 (th - ch)) ((i:ℚ) * rh)), true) ∧
      0 ≤ (scrollToRowNative i rh th ch).1 ∧
      (scrollToRowNative i rh th ch).1 ≤ max 0 (th - ch)) ∧
    (∀ (i : Int) (rh : ℚ),
      scrollToRowSynthetic i rh = (max 0 ((i:ℚ) * rh), true)) := by
  refine ⟨fun i rh th ch => ⟨rfl, le_max_left _ _, ?_⟩, fun i rh => rfl⟩
  show max 0 (min (max 0 (th - ch)) ((i:ℚ) * rh)) ≤ max 0 (th - ch)
  exact max_le (le_max_left _ _) (le_trans (min_le_left _ _) (le_refl _))

-- ── C1 ──

/-- C1 counterexample: with the rows client at `currentOffset = 300`,
writing a sort through `setSort` in Mosaic mode leaves the fetch window
offset at 300 — the claimed reset to `offset = 0` does not happen
(useContainerWidth.ts lines 243–251 never touch the window; the `sort`
setter, CountClient.ts lines 84–88, only assigns `currentSort`). -/
theorem setSort_offset_not_reset_cex :
    (setSortMosaic
      { client := { currentSort := .none, currentOffset := 300,
                    currentLimit := 60, pendingUpdate := false },
        model := { rows := fun _ => (.none : Option Nat), totalRows := 1000 } }
      (some (.single ⟨"a", true⟩))).client.currentOffset = 300 ∧
    (setSortMosaic
      { client := { currentSort := .none, currentOffset := 300,
                    currentLimit := 60, pendingUpdate := false },
        model := { rows := fun _ => (.none : Option Nat), totalRows := 1000 } }
      (some (.single ⟨"a", true⟩))).client.currentOffset ≠ 0 := by
  exact ⟨rfl, by decide⟩

/-- C1 (amended): for every sort value written through `setSort` in
Mosaic mode, the operation stores the sort on the rows client, clears
the Sparse Data Model — so no previously delivered row remains
observable via `getRow` — and requests re-execution, but it leaves the
fetch window (`currentOffset`, `currentLimit`) unchanged rather than
resetting the offset to 0. -/
theorem setSort_clears_model_keeps_window {Row : Type}
    (st : MosaicTableState Row) (newSort : Option JsSort) :
    (∀ i, (setSortMosaic st newSort).model.getRow i = .none) ∧
    (setSortMosaic st newSort).client.currentSort = newSort ∧
    (setSortMosaic st newSort).client.currentOffset = st.client.currentOffset ∧
    (setSortMosaic st newSort).client.currentLimit = st.client.currentLimit ∧
    (setSortMosaic st newSort).client.pendingUpdate = true ∧
    (setSortMosaic st newSort).model.totalRows = st.model.totalRows :=
  ⟨fun _ => rfl, rfl, rfl, rfl, rfl, rfl⟩

-- ── C2 ──

/-- C2 counterexample: with the model reporting `totalRows = 10`,
`setWindow(20, 0)` — `offset ≥ totalRows` and `limit ≤ 0` — stores
offset 20 and limit 0 verbatim as the rows client's fetch window
(CountClient.ts lines 145–149 perform plain assignments); neither value
is clamped to the valid range (`offset < totalRows`, `limit ≥ 1`). -/
theorem setWindow_no_clamp_cex :
    (setWindowTable
      { client := { currentSort := .none, currentOffset := 0,
                    currentLimit := 100, pendingUpdate := false },
        model := { rows := fun _ => (.none : Option Nat), totalRows := 10 } }
      20 0).client.currentOffset = 20 ∧
    (setWindowTable
      { client := { currentSort := .none, currentOffset := 0,
                    currentLimit := 100, pendingUpdate := false },
        model := { rows := fun _ => (.none : Option Nat), totalRows := 10 } }
      20 0).client.currentLimit = 0 ∧
    ¬ (1 : Int) ≤ (setWindowTable
      { client := { currentSort := .none, currentOffset := 0,
                    currentLimit := 100, pendingUpdate := false },
        model := { rows := fun _ => (.none : Option Nat), totalRows := 10 } }
      20 0).client.currentLimit := by
  exact ⟨rfl, rfl, by decide⟩

/-- C2 (amended): `setWindow(offset, limit)` stores both arguments
unchanged as the rows client's fetch window — no clamping occurs for
`offset ≥ totalRows` or `limit ≤ 0` — requests re-execution, leaves the
model untouched, and (being a total function) never throws. -/
theorem setWindow_stores_arguments {Row : Type}
    (st : MosaicTableState Row) (offset limit : Int) :
    (setWindowTable st offset limit).client.currentOffset = offset ∧
    (setWindowTable st offset limit).client.currentLimit = limit ∧
    (setWindowTable st offset limit).client.pendingUpdate = true ∧
    (setWindowTable st offset limit).client.currentSort = st.client.currentSort ∧
    (setWindowTable st offset limit).model = st.model :=
  ⟨rfl, rfl, rfl, rfl, rfl⟩

-- ── C6 ──

/-- C6: the count client's query is
`Query.from(table).select({count: count()}).where(filter)` — exactly
`SELECT count(*) FROM <table> WHERE <filter>` with no ordering, limit or
offset — and every delivered result is reduced to a single integer and
forwarded to the Data Model's `setTotalRows`, so the model's `totalRows`
afterwards equals that integer. -/
theorem countClient_query_and_forwarding :
    (∀ (F : Type) (tableName : String) (filter : Option F),
      countClientQuery F tableName filter = specCountQuery F tableName filter) ∧
    (∀ (Row : Type) (st : MosaicTableState Row) (arr : List CountRow),
      (deliverCountResult st arr).model.totalRows = extractCount arr) :=
  ⟨fun _ _ _ => rfl, fun _ _ _ => rfl⟩

-- ── C10 ──

/-- C10: for every model state and every delivered count result whose
array is empty or whose first row lacks the `count` field (regardless of
any further rows), `queryResult` reduces the result to `0` without
throwing and still forwards it to `setTotalRows` — the model's
`totalRows` becomes 0 rather than being left unchanged. -/
theorem countClient_degenerate_result_sets_zero :
    extractCount [] = 0 ∧
    (∀ rest : List CountRow, extractCount ({ count := .none } :: rest) = 0) ∧
    (∀ (Row : Type) (st : MosaicTableState Row),
      (deliverCountResult st []).model.totalRows = 0) ∧
    (∀ (Row : Type) (st : MosaicTableState Row) (rest : List CountRow),
      (deliverCountResult st ({ count := .none } :: rest)).model.totalRows = 0) :=
  ⟨rfl, fun _ => rfl, fun _ _ => rfl, fun _ _ _ => rfl⟩

-- ── C5 helper lemmas ──

theorem objSet_of_not_mem (obj : List (String × SqlExpr)) (k : String)
    (v : SqlExpr) (h : k ∉ obj.map Prod.fst) :
    objSet obj k v = obj ++ [(k, v)] := by
  unfold objSet
  rw [if_neg]
  intro hc
  rcases List.any_eq_true.mp hc with ⟨p, hp, he⟩
  exact h (List.mem_map.mpr ⟨p, hp, eq_of_beq he⟩)

theorem foldl_objSet_append (cols : List ColumnSchema) :
    ∀ acc : List (String × SqlExpr),
      (cols.map ColumnSchema.name).Nodup →
      (∀ c ∈ cols, c.name ∉ acc.map Prod.fst) →
      cols.foldl (fun a c => objSet a c.name (colProjection c)) acc
        = acc ++ cols.map (fun c => (c.name, colProjection c)) := by
  induction cols with
  | nil => intro acc _ _; simp
  | cons c cs ih =>
    intro acc hnd hdis
    have hnd2 : (∀ x ∈ cs, ¬ x.name = c.name) ∧
        (cs.map ColumnSchema.name).Nodup := by simpa using hnd
    simp only [List.foldl_cons]
    rw [objSet_of_not_mem _ _ _ (hdis c (List.mem_cons_self c cs))]
    rw [ih (acc ++ [(c.name, colProjection c)]) hnd2.2 ?_]
    · simp
    · intro c' hc'
      simp only [List.map_append, List.mem_append, List.map_cons, List.map_nil]
      rintro (h | h)
      · exact hdis c' (List.mem_cons_of_mem _ hc') h
      · simp only [List.mem_singleton] at h
        exact hnd2.1 c' hc' h

theorem buildSelectObj_eq (cols : List ColumnSchema)
    (hnd : (cols.map ColumnSchema.name).Nodup) :
    buildSelectObj cols = cols.map (fun c => (c.name, colProjection c)) := by
  unfold buildSelectObj
  rw [foldl_objSet_append cols [] hnd (by simp)]
  simp

-- ── C5 ──

/-- C5: for column lists with distinct names not containing the reserved
`__oid` key, the rows client's query equals the spec's shape: each
column projected directly or through the cast selector's cast, `__oid`
projected as `row_number()` with a window `ORDER BY` over the sort
expressions exactly when the sort list is non-empty, the `WHERE` clause
from the filter, a top-level `ORDER BY` only when the sort list is
non-empty, and `LIMIT limit OFFSET offset` applied last. -/
theorem rowsClient_query_shape (F : Type) (tableName : String)
    (columns : List ColumnSchema) (currentSort : Option JsSort)
    (currentOffset currentLimit : Int) (filter : Option F)
    (hnd : (columns.map ColumnSchema.name).Nodup)
    (hoid : "__oid" ∉ columns.map ColumnSchema.name) :
    rowsClientQuery F tableName columns currentSort currentOffset currentLimit filter
      = specRowQuery F tableName columns currentSort currentOffset currentLimit filter := by
  have hsel : buildSelectObj columns
      = columns.map (fun c => (c.name, colProjection c)) :=
    buildSelectObj_eq columns hnd
  have hnames : (buildSelectObj columns).map Prod.fst
      = columns.map ColumnSchema.name := by
    rw [hsel, List.map_map]
    rfl
  have hoid' : "__oid" ∉ (buildSelectObj columns).map Prod.fst := by
    rw [hnames]; exact hoid
  cases currentSort with
  | none =>
    simp only [rowsClientQuery, specRowQuery, normalizeSortFields]
    rw [objSet_of_not_mem _ _ _ hoid', hsel]
    simp [queryFrom, SelectQuery.selectList, SelectQuery.whereClause,
      SelectQuery.limitTo, SelectQuery.offsetBy]
  | some s =>
    cases s with
    | single f =>
      simp only [rowsClientQuery, specRowQuery, normalizeSortFields]
      rw [objSet_of_not_mem _ _ _ hoid', hsel]
      simp [queryFrom, SelectQuery.selectList, SelectQuery.whereClause,
        SelectQuery.orderbyList, SelectQuery.limitTo, SelectQuery.offsetBy,
        SqlExpr.orderbyExpr]
    | multi fs =>
      cases fs with
      | nil =>
        simp only [rowsClientQuery, specRowQuery, normalizeSortFields]
        rw [objSet_of_not_mem _ _ _ hoid', hsel]
        simp [queryFrom, SelectQuery.selectList, SelectQuery.whereClause,
          SelectQuery.limitTo, SelectQuery.offsetBy]
      | cons f fs' =>
        simp only [rowsClientQuery, specRowQuery, normalizeSortFields]
        rw [objSet_of_not_mem _ _ _ hoid', hsel]
        simp [queryFrom, SelectQuery.selectList, SelectQuery.whereClause,
          SelectQuery.orderbyList, SelectQuery.limitTo, SelectQuery.offsetBy,
          SqlExpr.orderbyExpr]

/-- Witness for C5 at a concrete configuration: two columns (one
requiring a cast), a single descending sort, offset 20, limit 50; the
built query matches the spec shape, and its fields evaluate to the
expected concrete SQL structure. -/
theorem rowsClient_query_shape_witness :
    rowsClientQuery Nat "orders"
        [⟨"id", "BIGINT", .numeric⟩, ⟨"name", "VARCHAR", .text⟩]
        (some (.single ⟨"id", true⟩)) 20 50 (some 7)
      = specRowQuery Nat "orders"
        [⟨"id", "BIGINT", .numeric⟩, ⟨"name", "VARCHAR", .text⟩]
        (some (.single ⟨"id", true⟩)) 20 50 (some 7) ∧
    (rowsClientQuery Nat "orders"
        [⟨"id", "BIGINT", .numeric⟩, ⟨"name", "VARCHAR", .text⟩]
        (some (.single ⟨"id", true⟩)) 20 50 (some 7)).select
      = [("id", SqlExpr.cast (.col "id") "TEXT"), ("name", SqlExpr.col "name"),
         ("__oid", SqlExpr.rowNumber [SqlExpr.desc (.col "id")])] ∧
    (rowsClientQuery Nat "orders"
        [⟨"id", "BIGINT", .numeric⟩, ⟨"name", "VARCHAR", .text⟩]
        (some (.single ⟨"id", true⟩)) 20 50 (some 7)).orderby
      = [SqlExpr.desc (.col "id")] ∧
    (rowsClientQuery Nat "orders"
        [⟨"id", "BIGINT", .numeric⟩, ⟨"name", "VARCHAR", .text⟩]
        (some (.single ⟨"id", true⟩)) 20 50 (some 7)).limit = some 50 ∧
    (rowsClientQuery Nat "orders"
        [⟨"id", "BIGINT", .numeric⟩, ⟨"name", "VARCHAR", .text⟩]
        (some (.single ⟨"id", true⟩)) 20 50 (some 7)).offset = some 20 :=
  ⟨rowsClient_query_shape Nat "orders"
      [⟨"id", "BIGINT", .numeric⟩, ⟨"name", "VARCHAR", .text⟩]
      (some (.single ⟨"id", true⟩)) 20 50 (some 7) (by decide) (by decide),
   rfl, rfl, rfl, rfl⟩
